import Mathlib

/-!
Shallow embedding of the AI Judge backend (Express + JSON-file case store).

Sources embedded here:
 - `backend/services/documentParser.js` : `parseDocument`, `parsePDF`, `parseWord`,
   `parseText`, `cleanExtractedText` (string normalisation over JS `\s`).
 - `backend/services/geminiService.js` : `parseVerdictResponse`, `parseArgumentResponse`
   (brace-substring JSON extraction with fixed fallback objects).
 - `backend/services/caseService.js` : `createCase`, `addDocumentsToSide`, `setVerdict`,
   `addArgument`, `saveCase` (whole-record read-modify-write keyed by case id).
 - `backend/index.js` and the blob-storage upload router: the HTTP endpoint guards
   for upload, judge and argue, modelled as step functions on the per-case store slot.

Timestamps (`new Date().toISOString()`), generated ids (`crypto.randomBytes`), library
calls (`pdf-parse`, `mammoth`, `fs.readFile`, `JSON.parse`, Gemini) are modelled as
explicit parameters, so every definition is executable.
-/

namespace AIJudge

/-! ## JS string semantics: the `\s` character class, `trim`, and the two
`cleanExtractedText` regex replacements -/

/-- The JavaScript regex `\s` character class (also the set removed by
`String.prototype.trim`): tab, LF, VT, FF, CR, space, NBSP, and the Unicode
space separators, line/paragraph separators and BOM. -/
def isJsSpace (c : Char) : Bool :=
  c = '\t' || c = '\n' || c = Char.ofNat 0x0b || c = Char.ofNat 0x0c || c = '\r' ||
  c = ' ' || c = Char.ofNat 0xa0 || c = Char.ofNat 0x1680 ||
  (decide (0x2000 ≤ c.toNat) && decide (c.toNat ≤ 0x200a)) ||
  c = Char.ofNat 0x2028 || c = Char.ofNat 0x2029 || c = Char.ofNat 0x202f ||
  c = Char.ofNat 0x205f || c = Char.ofNat 0x3000 || c = Char.ofNat 0xfeff

/-- `text.replace(/\s+/g, ' ')`: every maximal run of whitespace becomes one
space.  A whitespace character whose successor is also whitespace is dropped;
the last character of a run becomes `' '`. -/
def collapseWS : List Char → List Char
  | [] => []
  | c :: rest =>
    let nextWS : Bool := match rest with | [] => false | d :: _ => isJsSpace d
    if isJsSpace c then
      (if nextWS then collapseWS rest else ' ' :: collapseWS rest)
    else c :: collapseWS rest

/-- `String.prototype.trim` on a character list: drop leading and trailing
JS whitespace. -/
def jsTrimL (l : List Char) : List Char :=
  ((l.dropWhile isJsSpace).reverse.dropWhile isJsSpace).reverse

/-- Position of the last `'\n'` in a list (0 when there is none). -/
def lastNl : List Char → Nat
  | [] => 0
  | _ :: rest => if rest.contains '\n' then lastNl rest + 1 else 0

/-- Matching the tail `\s*\n\s*\n` of the regex `/\n\s*\n\s*\n/` directly after
an initial `'\n'`: with greedy backtracking the match succeeds iff the
whitespace run that follows contains at least two more newlines, and it then
extends exactly to the last newline of that run.  Returns the unmatched
remainder. -/
def tryTriple (rest : List Char) : Option (List Char) :=
  let run := rest.takeWhile isJsSpace
  if 2 ≤ run.count '\n' then some (rest.drop (lastNl run + 1)) else none

theorem tryTriple_length_le {rest rest' : List Char}
    (h : tryTriple rest = some rest') : rest'.length ≤ rest.length := by
  simp only [tryTriple] at h
  split at h
  · cases h
    simp [List.length_drop]
  · cases h

/-- The scan of `replaceTriple`, structurally recursive on a fuel that
dominates the list length (each step consumes at least one character, by
`tryTriple_length_le`, so the fuel never runs out). -/
def replaceTripleGo : Nat → List Char → List Char
  | _, [] => []
  | 0, l => l
  | fuel + 1, c :: rest =>
    if c = '\n' then
      match tryTriple rest with
      | some rest' => '\n' :: '\n' :: replaceTripleGo fuel rest'
      | none => c :: replaceTripleGo fuel rest
    else c :: replaceTripleGo fuel rest

/-- `text.replace(/\n\s*\n\s*\n/g, '\n\n')`: scan left to right; at a `'\n'`
that heads a full match, emit `"\n\n"` and resume after the match. -/
def replaceTriple (l : List Char) : List Char :=
  replaceTripleGo l.length l

/-- `collapseWS` lifted to `String`. -/
def collapseStr (s : String) : String := String.mk (collapseWS s.data)

/-- JS `trim` lifted to `String`. -/
def jsTrimStr (s : String) : String := String.mk (jsTrimL s.data)

/-- documentParser.js `cleanExtractedText`: `if (!text) return ''`, then
`.replace(/\s+/g, ' ').replace(/\n\s*\n\s*\n/g, '\n\n').trim()`. -/
def cleanExtractedText (s : String) : String :=
  if s = "" then ""
  else String.mk (jsTrimL (replaceTriple (collapseWS s.data)))

/-! Facts about the normalisation chain: the first replacement leaves no
newline, so the second replacement is the identity on its output. -/

theorem mem_collapseWS {l : List Char} {c : Char} (h : c ∈ collapseWS l) :
    c = ' ' ∨ isJsSpace c = false := by
  induction l with
  | nil => simp [collapseWS] at h
  | cons a rest ih =>
    simp only [collapseWS] at h
    by_cases ha : isJsSpace a
    · simp only [ha, if_true] at h
      rcases hr : (match rest with | [] => false | d :: _ => isJsSpace d) with _ | _
      · rw [hr] at h
        simp only [if_neg Bool.false_ne_true] at h
        rcases List.mem_cons.mp h with h | h
        · exact Or.inl h
        · exact ih h
      · rw [hr] at h
        simp only [if_pos rfl] at h
        exact ih h
    · simp only [ha, if_false] at h
      rcases List.mem_cons.mp h with h | h
      · subst h; exact Or.inr (by simpa using ha)
      · exact ih h

theorem newline_not_mem_collapseWS (l : List Char) : '\n' ∉ collapseWS l := by
  intro h
  rcases mem_collapseWS h with h' | h'
  · exact absurd h' (by decide)
  · exact absurd h' (by simp [isJsSpace])

theorem replaceTripleGo_of_no_newline {fuel : Nat} {l : List Char}
    (h : '\n' ∉ l) (hf : l.length ≤ fuel) : replaceTripleGo fuel l = l := by
  induction fuel generalizing l with
  | zero => cases l <;> rfl
  | succ fuel ih =>
    cases l with
    | nil => rfl
    | cons c rest =>
      have hc : c ≠ '\n' := fun hc => h (hc ▸ List.mem_cons_self c rest)
      have hr : '\n' ∉ rest := fun hr => h (List.mem_cons_of_mem c hr)
      have hf' : rest.length ≤ fuel := Nat.le_of_succ_le_succ hf
      simp [replaceTripleGo, hc, ih hr hf']

theorem replaceTriple_of_no_newline {l : List Char} (h : '\n' ∉ l) :
    replaceTriple l = l :=
  replaceTripleGo_of_no_newline h (Nat.le_refl _)

theorem cleanExtractedText_eq_trim_collapse (s : String) :
    cleanExtractedText s = jsTrimStr (collapseStr s) := by
  unfold cleanExtractedText jsTrimStr collapseStr
  rw [replaceTriple_of_no_newline (newline_not_mem_collapseWS s.data)]
  split
  · subst s; rfl
  · rfl

/-! ## documentParser.js : MIME dispatch -/

/-- The texts the three format libraries would return for one file:
`pdfParse(buffer).text`, `mammoth.extractRawText(...).value`, and
`fs.readFile(path, 'utf8')`.  The libraries do all structural decoding; the
repository's code only consumes these strings. -/
structure LibText where
  pdfText : String
  wordText : String
  rawText : String
deriving DecidableEq

/-- documentParser.js `parsePDF`: throw `'No text content found in PDF'` when
`!data.text || data.text.trim().length === 0`, else return the cleaned text;
the catch block rethrows with the `'PDF parsing failed: '` prefix. -/
def parsePDF (t : LibText) : Except String String :=
  if t.pdfText = "" || (jsTrimStr t.pdfText).length = 0 then
    Except.error ("PDF parsing failed: " ++ "No text content found in PDF")
  else Except.ok (cleanExtractedText t.pdfText)

/-- documentParser.js `parseWord` (mammoth, both `.doc` and `.docx`). -/
def parseWord (t : LibText) : Except String String :=
  if t.wordText = "" || (jsTrimStr t.wordText).length = 0 then
    Except.error ("Word document parsing failed: " ++ "No text content found in Word document")
  else Except.ok (cleanExtractedText t.wordText)

/-- documentParser.js `parseText` (plain text files). -/
def parseText (t : LibText) : Except String String :=
  if t.rawText = "" || (jsTrimStr t.rawText).length = 0 then
    Except.error ("Text file parsing failed: " ++ "Text file is empty")
  else Except.ok (cleanExtractedText t.rawText)

/-- documentParser.js `parseDocument`: switch on the MIME type, with the outer
catch rethrowing as `'Failed to parse document: ...'`. -/
def parseDocument (mimeType : String) (t : LibText) : Except String String :=
  let r : Except String String :=
    if mimeType = "application/pdf" then parsePDF t
    else if mimeType = "application/msword" ∨
        mimeType = "application/vnd.openxmlformats-officedocument.wordprocessingml.document" then
      parseWord t
    else if mimeType = "text/plain" then parseText t
    else Except.error ("Unsupported file type: " ++ mimeType)
  match r with
  | Except.ok s => Except.ok s
  | Except.error m => Except.error ("Failed to parse document: " ++ m)

/-- The four MIME types `parseDocument` recognises. -/
def supportedMimes : List String :=
  ["application/pdf", "application/msword",
   "application/vnd.openxmlformats-officedocument.wordprocessingml.document", "text/plain"]

/-! ## geminiService.js : response parsing -/

/-- `response.match(/\x7b[\s\S]*\x7d/)`: the regex starts at the first opening
brace and, being greedy, ends at the last closing brace of the string; it
matches iff a closing brace occurs after an opening brace. -/
def braceSub (s : List Char) : Option (List Char) :=
  let t := s.dropWhile (fun c => c ≠ '\x7b')
  let u := (t.reverse.dropWhile (fun c => c ≠ '\x7d')).reverse
  if u.isEmpty then none else some u

/-- The fixed object `parseVerdictResponse` returns when no JSON can be
extracted (geminiService.js lines 249-258).  `confidence: 0.5` is exact in
binary floating point, so a rational models it faithfully. -/
structure VerdictFallback where
  decision : String
  reasoning : String
  keyFindings : List String
  legalPrinciples : List String
  damages : Option String
  notes : String
  confidence : ℚ
  openToReconsideration : Bool
deriving DecidableEq

/-- geminiService.js verdict fallback object, with `reasoning` set to the raw
response text. -/
def verdictFallback (response : String) : VerdictFallback where
  decision := "insufficient_evidence"
  reasoning := response
  keyFindings := []
  legalPrinciples := []
  damages := none
  notes := "Response could not be parsed into structured format"
  confidence := 1 / 2
  openToReconsideration := true

/-- The fixed object `parseArgumentResponse` returns on parse failure
(geminiService.js lines 279-288). -/
structure ArgumentFallback where
  response : String
  verdictChange : String
  newReasoning : Option String
  addressedPoints : List String
  remainingConcerns : List String
  legalCitations : List String
  confidence : ℚ
  requestsClarification : Option String
deriving DecidableEq

/-- geminiService.js argument fallback object. -/
def argumentFallback (response : String) : ArgumentFallback where
  response := response
  verdictChange := "none"
  newReasoning := none
  addressedPoints := []
  remainingConcerns := []
  legalCitations := []
  confidence := 1 / 2
  requestsClarification := none

/-- geminiService.js `parseVerdictResponse`.  `JSON.parse` is a library call;
it is passed in as `jsonParse`, returning `none` exactly when it would throw.
A successful parse of the brace substring is returned as is (`Sum.inl`);
otherwise the fixed fallback object is returned. -/
def parseVerdictResponse {α : Type} (jsonParse : String → Option α)
    (response : String) : α ⊕ VerdictFallback :=
  match braceSub response.data with
  | some sub =>
    match jsonParse (String.mk sub) with
    | some v => Sum.inl v
    | none => Sum.inr (verdictFallback response)
  | none => Sum.inr (verdictFallback response)

/-- geminiService.js `parseArgumentResponse`: identical extraction, different
fallback object. -/
def parseArgumentResponse {α : Type} (jsonParse : String → Option α)
    (response : String) : α ⊕ ArgumentFallback :=
  match braceSub response.data with
  | some sub =>
    match jsonParse (String.mk sub) with
    | some v => Sum.inl v
    | none => Sum.inr (argumentFallback response)
  | none => Sum.inr (argumentFallback response)

/-! ## caseService.js : the Case record and its operations

A case is one JSON file keyed by case id; every operation is read-modify-write
of the whole record (`saveCase` also stamps `updatedAt`).  The verdict payload
(arbitrary parsed JSON plus the fields `generateVerdict` spreads in) and the
AI argument response are opaque to the case service, so the record is
parametric in their types `V` and `R`.  Absent JS values (`undefined`/`null`)
are `Option`; the JS `x || d` default on strings reads `if x = "" then d`. -/

/-- A stored document (upload route `parsedDocuments` entry; the blob variant
adds `fileUrl` and stores the storage path in `path`). -/
structure StoredDoc where
  filename : String
  path : String
  mimetype : String
  size : Nat
  extractedText : String
  fileUrl : Option String
deriving DecidableEq

/-- One side of a case (`sideA` / `sideB` in `createCase`). -/
structure SideData where
  description : Option String
  documents : List StoredDoc
  uploadedAt : Option String
deriving DecidableEq

/-- The `metadata` sub-record of a case. -/
structure CaseMeta where
  totalArguments : Nat
  sideAArguments : Nat
  sideBArguments : Nat
  lastActivity : String
deriving DecidableEq

/-- A stored argument entry: the fields the argue endpoint passes to
`addArgument` plus the `id` and resolved `timestamp` added there. -/
structure ArgEntry (R : Type) where
  side : String
  argument : String
  aiResponse : R
  timestamp : String
  argumentNumber : Nat
  id : String
deriving DecidableEq

/-- The argument data handed to `addArgument` before `id`/`timestamp`
resolution (`timestamp: argumentData.timestamp || new Date().toISOString()`). -/
structure ArgInput (R : Type) where
  side : String
  argument : String
  aiResponse : R
  timestamp : Option String
  argumentNumber : Nat
deriving DecidableEq

/-- The info object passed to `createCase`. -/
structure CaseInfo where
  title : String
  description : String
  country : String
  caseType : String
deriving DecidableEq

/-- The full per-case JSON record written by caseService.js. -/
structure Case (V R : Type) where
  caseId : String
  title : String
  description : String
  country : String
  caseType : String
  status : String
  createdAt : String
  updatedAt : String
  sideA : SideData
  sideB : SideData
  verdict : Option V
  arguments : List (ArgEntry R)
  metadata : CaseMeta
deriving DecidableEq

/-- `caseData.arguments.filter(arg => arg.side === s).length`. -/
def countSide {R : Type} (args : List (ArgEntry R)) (s : String) : Nat :=
  (args.filter (fun a => a.side = s)).length

/-- caseService.js `createCase`: the generated id (`generateCaseId()`) and the
timestamp are parameters.  `saveCase` stamps `updatedAt` with the same clock
reading. -/
def createCase {V R : Type} (info : CaseInfo) (genId now : String) : Case V R where
  caseId := genId
  title := info.title
  description := info.description
  country := info.country
  caseType := if info.caseType = "" then "civil" else info.caseType
  status := "created"
  createdAt := now
  updatedAt := now
  sideA := { description := none, documents := [], uploadedAt := none }
  sideB := { description := none, documents := [], uploadedAt := none }
  verdict := none
  arguments := []
  metadata := { totalArguments := 0, sideAArguments := 0, sideBArguments := 0,
                lastActivity := now }

/-- The `documentData` argument of `addDocumentsToSide`. -/
structure DocData where
  description : Option String
  documents : List StoredDoc
deriving DecidableEq

/-- caseService.js `addDocumentsToSide` on the store slot of `caseId`:
auto-creates a case when the slot is empty (then overwrites the generated id
with the requested one), replaces the side sub-record (`side === 'A'` picks
`sideA`, anything else `sideB`), recomputes the status from both document
lists, and stamps `lastActivity`/`updatedAt`. -/
def addDocumentsToSide {V R : Type} (slot : Option (Case V R)) (caseId side : String)
    (dd : DocData) (now genId : String) : Case V R :=
  let c0 : Case V R :=
    match slot with
    | some c => c
    | none =>
      { (createCase { title := "Case " ++ caseId,
                      description := "Auto-created case from document upload",
                      country := "United States", caseType := "civil" } genId now : Case V R)
        with caseId := caseId }
  let newSide : SideData :=
    { description := dd.description, documents := dd.documents, uploadedAt := some now }
  let c1 : Case V R :=
    if side = "A" then { c0 with sideA := newSide } else { c0 with sideB := newSide }
  { c1 with
    status :=
      if 0 < c1.sideA.documents.length ∧ 0 < c1.sideB.documents.length then
        "ready_for_judgment"
      else "awaiting_documents",
    metadata := { c1.metadata with lastActivity := now },
    updatedAt := now }

/-- caseService.js `setVerdict` on an existing case: set `verdict` and
`status`, stamp `lastActivity`, and let `saveCase` stamp `updatedAt`. -/
def setVerdict {V R : Type} (c : Case V R) (verdict : V) (now : String) : Case V R :=
  { c with
    verdict := some verdict,
    status := "verdict_rendered",
    metadata := { c.metadata with lastActivity := now },
    updatedAt := now }

/-- The entry `addArgument` pushes: the spread of `argumentData` plus a
generated `id` and `timestamp: argumentData.timestamp || new Date().toISOString()`. -/
def argEntryOf {R : Type} (ad : ArgInput R) (genId now : String) : ArgEntry R where
  side := ad.side
  argument := ad.argument
  aiResponse := ad.aiResponse
  timestamp := match ad.timestamp with
               | some t => if t = "" then now else t
               | none => now
  argumentNumber := ad.argumentNumber
  id := genId

/-- caseService.js `addArgument` on an existing case: push the entry,
recompute all three metadata counters from the full list, stamp
`lastActivity`, set the status, save.  (The `if (!caseData.arguments)`
null-guard is the identity here: `arguments` is a total list, as in every
record this service writes.) -/
def addArgument {V R : Type} (c : Case V R) (ad : ArgInput R) (genId now : String) :
    Case V R :=
  let entry : ArgEntry R := argEntryOf ad genId now
  let args := c.arguments ++ [entry]
  { c with
    arguments := args,
    metadata := { totalArguments := args.length,
                  sideAArguments := countSide args "A",
                  sideBArguments := countSide args "B",
                  lastActivity := now },
    status := "arguments_phase",
    updatedAt := now }

/-! ## backend/index.js and the blob-storage router: HTTP endpoint steps

Each endpoint is a function from the store slot of the addressed case id (plus
the request data and the oracles for parsing, cloud upload, clock and id
generation) to the new slot contents and the HTTP response.  `Http.ok` stands
for the endpoint's 200 JSON body; errors carry the status code and the `error`
field of the JSON body. -/

/-- An HTTP response, reduced to what the claims mention. -/
inductive Http where
  | ok : Http
  | err : Nat → String → Http
deriving DecidableEq

/-- A multer file object as the upload handlers see it. -/
structure UpFile where
  originalname : String
  path : String
  mimetype : String
  size : Nat
deriving DecidableEq

/-- The `parsedDocuments` entry built by the disk-storage upload routes
(index.js lines 97-103). -/
def mkDiskDoc (f : UpFile) (text : String) : StoredDoc where
  filename := f.originalname
  path := f.path
  mimetype := f.mimetype
  size := f.size
  extractedText := text
  fileUrl := none

/-- What `uploadToSupabase` returns in the blob-storage router. -/
structure CloudInfo where
  fileUrl : String
  storagePath : String
deriving DecidableEq

/-- The document entry built by the blob-storage upload routes. -/
def mkBlobDoc (f : UpFile) (text : String) (cl : CloudInfo) : StoredDoc where
  filename := f.originalname
  path := cl.storagePath
  mimetype := f.mimetype
  size := f.size
  extractedText := text
  fileUrl := some cl.fileUrl

/-- index.js `POST /api/upload/side-a` and `/api/upload/side-b` (the two
handlers differ only in the side constant): reject an absent or empty file
list with 400 `'No files uploaded'`, otherwise parse each file — skipping
files whose parse throws — and hand the results to `addDocumentsToSide`. -/
def uploadDiskStep {V R : Type} (slot : Option (Case V R)) (caseId side : String)
    (files : Option (List UpFile)) (parse : UpFile → Except String String)
    (descr : Option String) (now genId : String) : Option (Case V R) × Http :=
  match files with
  | none => (slot, Http.err 400 "No files uploaded")
  | some fl =>
    if fl.isEmpty then (slot, Http.err 400 "No files uploaded")
    else
      let parsed := fl.filterMap (fun f => ((parse f).toOption).map (mkDiskDoc f))
      let c := addDocumentsToSide slot caseId side
        { description := descr, documents := parsed } now genId
      (some c, Http.ok)

/-- The blob-storage router's per-file loop: it rethrows the first parse or
cloud-upload failure (unlike the disk variant, which continues). -/
def processBlobFiles (parse : UpFile → Except String String)
    (cloud : UpFile → Except String CloudInfo) :
    List UpFile → Except String (List StoredDoc)
  | [] => Except.ok []
  | f :: fs => do
    let t ← parse f
    let cl ← cloud f
    let rest ← processBlobFiles parse cloud fs
    Except.ok (mkBlobDoc f t cl :: rest)

/-- Blob-storage router `POST /side-a` / `/side-b`: the same empty-list guard,
then the aborting loop (a failure reaches the catch block, which answers 500),
then `addDocumentsToSide`. -/
def uploadBlobStep {V R : Type} (slot : Option (Case V R)) (caseId side : String)
    (files : Option (List UpFile)) (parse : UpFile → Except String String)
    (cloud : UpFile → Except String CloudInfo)
    (descr : Option String) (now genId : String) : Option (Case V R) × Http :=
  match files with
  | none => (slot, Http.err 400 "No files uploaded")
  | some fl =>
    if fl.isEmpty then (slot, Http.err 400 "No files uploaded")
    else
      match processBlobFiles parse cloud fl with
      | Except.error _ => (slot, Http.err 500 "Failed to process uploaded documents")
      | Except.ok parsed =>
        let c := addDocumentsToSide slot caseId side
          { description := descr, documents := parsed } now genId
        (some c, Http.ok)

/-- JS truthiness of `caseData.sideA?.documents` negated: the field holds an
Array in every record this service writes, and `!x` is `false` for every
object — including an empty array — so the test never fires on a stored
case; it would only detect a missing field value. -/
def jsArrayNotTruthy (docs : List StoredDoc) : Bool := false

/-- index.js `POST /api/case/:caseId/judge`: 404 when the case does not exist;
400 when `!caseData.sideA?.documents || !caseData.sideB?.documents`; otherwise
generate the verdict (the Gemini result is the parameter `v`) and store it via
`setVerdict`. -/
def judgeStep {V R : Type} (slot : Option (Case V R)) (v : V) (now : String) :
    Option (Case V R) × Http :=
  match slot with
  | none => (none, Http.err 404 "Case not found")
  | some c =>
    if jsArrayNotTruthy c.sideA.documents || jsArrayNotTruthy c.sideB.documents then
      (some c, Http.err 400 "Both sides must submit documents before judgment can be rendered")
    else
      (some (setVerdict c v now), Http.ok)

/-- index.js `POST /api/case/:caseId/argue`: body validation, then the
existence, verdict and per-side limit guards in source order; on success the
AI response `r` and the entry metadata are handed to `addArgument`. -/
def argueStep {V R : Type} (slot : Option (Case V R)) (side argument : String)
    (r : R) (genId now : String) : Option (Case V R) × Http :=
  if side = "" ∨ argument = "" then
    (slot, Http.err 400 "Side and argument are required")
  else if side ≠ "A" ∧ side ≠ "B" then
    (slot, Http.err 400 "Side must be either A or B")
  else
    match slot with
    | none => (none, Http.err 404 "Case not found")
    | some c =>
      if c.verdict.isNone then
        (some c, Http.err 400 "Initial verdict must be rendered before arguments can be submitted")
      else
        let n := countSide c.arguments side
        if 5 ≤ n then
          (some c, Http.err 400 "Maximum number of arguments (5) reached for this side")
        else
          let c' := addArgument c
            { side := side, argument := argument, aiResponse := r,
              timestamp := some now, argumentNumber := n + 1 } genId now
          (some c', Http.ok)

/-- The case states reachable in the store slot of one case id through the
HTTP endpoints, starting from an empty slot.  `created` covers
`POST /api/case/create` landing on this id; `uploaded` covers both upload
variants (any parsed document list, including an empty one when every file
fails to parse); `deleted` covers `DELETE /api/case/:caseId`. -/
inductive Reach (V R : Type) : Option (Case V R) → Prop where
  | init : Reach V R none
  | created (s : Option (Case V R)) (info : CaseInfo) (genId now : String) :
      Reach V R s → Reach V R (some (createCase info genId now))
  | uploaded (s : Option (Case V R)) (caseId side : String) (dd : DocData)
      (now genId : String) :
      Reach V R s → Reach V R (some (addDocumentsToSide s caseId side dd now genId))
  | judged (s : Option (Case V R)) (v : V) (now : String) :
      Reach V R s → Reach V R (judgeStep s v now).1
  | argued (s : Option (Case V R)) (side argument : String) (r : R)
      (genId now : String) :
      Reach V R s → Reach V R (argueStep s side argument r genId now).1
  | deleted (s : Option (Case V R)) : Reach V R s → Reach V R none

/-- The five values the `status` field can take (spec §2). -/
def statusValues : List String :=
  ["created", "awaiting_documents", "ready_for_judgment", "verdict_rendered",
   "arguments_phase"]

/-! ## Invariants of reachable case states -/

/-- The invariant the claims C2-C4 assert of every stored case: a legal
status value, at most five arguments per side, and no arguments without a
verdict. -/
def CaseInv {V R : Type} (c : Case V R) : Prop :=
  c.status ∈ statusValues ∧
  countSide c.arguments "A" ≤ 5 ∧
  countSide c.arguments "B" ≤ 5 ∧
  (c.arguments ≠ [] → c.verdict.isSome)

theorem countSide_append {R : Type} (args : List (ArgEntry R)) (e : ArgEntry R)
    (t : String) :
    countSide (args ++ [e]) t =
      countSide args t + (if e.side = t then 1 else 0) := by
  simp only [countSide, List.filter_append]
  by_cases h : e.side = t <;> simp [h]

theorem countSide_cons {R : Type} (a : ArgEntry R) (args : List (ArgEntry R))
    (t : String) :
    countSide (a :: args) t = (if a.side = t then 1 else 0) + countSide args t := by
  by_cases h : a.side = t <;> simp [countSide, List.filter_cons, h, Nat.add_comm]

theorem argEntryOf_side {R : Type} (ad : ArgInput R) (genId now : String) :
    (argEntryOf ad genId now).side = ad.side := rfl

theorem addArgument_arguments {V R : Type} (c : Case V R) (ad : ArgInput R)
    (genId now : String) :
    (addArgument c ad genId now).arguments =
      c.arguments ++ [argEntryOf ad genId now] := rfl

theorem countSide_all_sides {R : Type} (args : List (ArgEntry R))
    (h : ∀ a ∈ args, a.side = "A" ∨ a.side = "B") :
    countSide args "A" + countSide args "B" = args.length := by
  induction args with
  | nil => rfl
  | cons a rest ih =>
    have hrest : ∀ b ∈ rest, b.side = "A" ∨ b.side = "B" :=
      fun b hb => h b (List.mem_cons_of_mem a hb)
    have hsum := ih hrest
    rcases h a (List.mem_cons_self a rest) with ha | ha
    · rw [countSide_cons, countSide_cons, ha, if_pos rfl, if_neg (by decide),
        List.length_cons]
      omega
    · rw [countSide_cons, countSide_cons, ha, if_neg (by decide), if_pos rfl,
        List.length_cons]
      omega

theorem addDocumentsToSide_arguments {V R : Type} (slot : Option (Case V R))
    (caseId side : String) (dd : DocData) (now genId : String) :
    (addDocumentsToSide slot caseId side dd now genId).arguments =
      match slot with
      | some c => c.arguments
      | none => [] := by
  cases slot <;> simp [addDocumentsToSide, createCase] <;> split <;> rfl

theorem addDocumentsToSide_verdict {V R : Type} (slot : Option (Case V R))
    (caseId side : String) (dd : DocData) (now genId : String) :
    (addDocumentsToSide slot caseId side dd now genId).verdict =
      match slot with
      | some c => c.verdict
      | none => none := by
  cases slot <;> simp [addDocumentsToSide, createCase] <;> split <;> rfl

theorem addDocumentsToSide_status_mem {V R : Type} (slot : Option (Case V R))
    (caseId side : String) (dd : DocData) (now genId : String) :
    (addDocumentsToSide slot caseId side dd now genId).status ∈ statusValues := by
  cases slot <;> simp only [addDocumentsToSide] <;> (repeat' split) <;>
    simp [statusValues]

theorem argueStep_fst_cases {V R : Type} (c0 : Case V R) (side argument : String)
    (r : R) (genId now : String) :
    (argueStep (some c0) side argument r genId now).1 = some c0 ∨
    ((argueStep (some c0) side argument r genId now).1 =
        some (addArgument c0
          { side := side, argument := argument, aiResponse := r,
            timestamp := some now,
            argumentNumber := countSide c0.arguments side + 1 } genId now) ∧
      countSide c0.arguments side < 5 ∧ c0.verdict.isSome ∧
      (side = "A" ∨ side = "B")) := by
  unfold argueStep
  by_cases h1 : side = "" ∨ argument = ""
  · simp [h1]
  · rw [if_neg h1]
    by_cases h2 : side ≠ "A" ∧ side ≠ "B"
    · simp [h2]
    · rw [if_neg h2]
      dsimp only
      by_cases h3 : c0.verdict.isNone
      · simp [h3]
      · rw [if_neg h3]
        by_cases h4 : 5 ≤ countSide c0.arguments side
        · simp [h4]
        · rw [if_neg h4]
          refine Or.inr ⟨rfl, Nat.lt_of_not_le h4, ?_, ?_⟩
          · cases hv : c0.verdict with
            | none => exact absurd (by simp [hv]) h3
            | some v => simp
          · by_cases hA : side = "A"
            · exact Or.inl hA
            · exact Or.inr (by_contra fun hB => h2 ⟨hA, hB⟩)

theorem argueStep_none_fst {V R : Type} (side argument : String) (r : R)
    (genId now : String) :
    (argueStep (V := V) (R := R) none side argument r genId now).1 = none := by
  unfold argueStep
  by_cases h1 : side = "" ∨ argument = ""
  · simp [h1]
  · rw [if_neg h1]
    by_cases h2 : side ≠ "A" ∧ side ≠ "B"
    · simp [h2]
    · rw [if_neg h2]

/-- Every case record reachable in a store slot through the HTTP endpoints
satisfies `CaseInv`. -/
theorem reach_caseInv {V R : Type} {s : Option (Case V R)} (h : Reach V R s) :
    ∀ c : Case V R, s = some c → CaseInv c := by
  induction h with
  | init => intro c hc; cases hc
  | created s info genId now _ _ =>
    intro c hc
    cases hc
    exact ⟨by simp [createCase, statusValues], by simp [createCase, countSide],
      by simp [createCase, countSide], by simp [createCase]⟩
  | uploaded s caseId side dd now genId _ ih =>
    intro c hc
    cases hc
    refine ⟨addDocumentsToSide_status_mem .., ?_, ?_, ?_⟩ <;>
      rw [addDocumentsToSide_arguments] <;> try rw [addDocumentsToSide_verdict]
    · cases s with
      | none => simp [countSide]
      | some c0 => exact (ih c0 rfl).2.1
    · cases s with
      | none => simp [countSide]
      | some c0 => exact (ih c0 rfl).2.2.1
    · cases s with
      | none => simp
      | some c0 => exact (ih c0 rfl).2.2.2
  | judged s v now _ ih =>
    cases s with
    | none => intro c hc; simp [judgeStep] at hc
    | some c0 =>
      intro c hc
      simp [judgeStep, jsArrayNotTruthy] at hc
      cases hc
      have h0 := ih c0 rfl
      exact ⟨by simp [setVerdict, statusValues],
        by simpa [setVerdict, countSide] using h0.2.1,
        by simpa [setVerdict, countSide] using h0.2.2.1,
        by simp [setVerdict]⟩
  | argued s side argument r genId now _ ih =>
    cases s with
    | none => intro c hc; rw [argueStep_none_fst] at hc; cases hc
    | some c0 =>
      intro c hc
      rcases argueStep_fst_cases c0 side argument r genId now with he | ⟨he, hlt, hv, hside⟩
      · rw [he] at hc; cases hc; exact ih c0 rfl
      · rw [he] at hc
        cases hc
        have h0 := ih c0 rfl
        refine ⟨by simp [addArgument, statusValues], ?_, ?_,
          fun _ => by simpa [addArgument] using hv⟩
        · rw [addArgument_arguments, countSide_append, argEntryOf_side]
          rcases hside with hs | hs <;> subst hs
          · rw [if_pos rfl]; omega
          · dsimp only
            rw [if_neg (by decide)]
            simpa using h0.2.1
        · rw [addArgument_arguments, countSide_append, argEntryOf_side]
          rcases hside with hs | hs <;> subst hs
          · dsimp only
            rw [if_neg (by decide)]
            simpa using h0.2.2.1
          · rw [if_pos rfl]; omega
  | deleted s _ _ => intro c hc; cases hc

/-! ## Claims -/

/-- A case exactly as `createCase` writes it: both document lists empty. -/
def emptySidesCase : Case Unit Unit :=
  createCase { title := "Contract dispute", description := "A dispute",
               country := "United States", caseType := "civil" }
    "case_1" "2024-01-01T00:00:00.000Z"

/-- C1 (code bug): the claim says POST `/api/case/:caseId/judge` returns 400
whenever either side's document list is empty.  The code's guard
`!caseData.sideA?.documents || !caseData.sideB?.documents` tests only the
presence of the array (`![]` is `false` in JS), so on the case `createCase`
writes — both lists empty — the endpoint proceeds and stores a verdict
instead of answering 400, contradicting its own error message
`'Both sides must submit documents before judgment can be rendered'`. -/
theorem judge_accepts_empty_sides :
    emptySidesCase.sideA.documents = [] ∧
    emptySidesCase.sideB.documents = [] ∧
    judgeStep (some emptySidesCase) () "2024-01-01T00:05:00.000Z" =
      (some (setVerdict emptySidesCase () "2024-01-01T00:05:00.000Z"), Http.ok) ∧
    (setVerdict emptySidesCase () "2024-01-01T00:05:00.000Z").verdict = some () :=
  ⟨rfl, rfl, rfl, rfl⟩

/-- C2: a sixth argument for a side is rejected — when a case already holds
five arguments for the submitted side, the argue endpoint answers 400 and
leaves the stored case unchanged; consequently every reachable case state
holds at most five arguments per side. -/
theorem argue_rejects_sixth_argument :
    (∀ (V R : Type) (c : Case V R) (side argument : String) (r : R)
        (genId now : String),
      5 ≤ countSide c.arguments side →
      ∃ m, argueStep (some c) side argument r genId now = (some c, Http.err 400 m)) ∧
    (∀ (V R : Type) (c : Case V R), Reach V R (some c) →
      countSide c.arguments "A" ≤ 5 ∧ countSide c.arguments "B" ≤ 5) := by
  constructor
  · intro V R c side argument r genId now h5
    unfold argueStep
    by_cases h1 : side = "" ∨ argument = ""
    · exact ⟨"Side and argument are required", by rw [if_pos h1]⟩
    · rw [if_neg h1]
      by_cases h2 : side ≠ "A" ∧ side ≠ "B"
      · exact ⟨"Side must be either A or B", by rw [if_pos h2]⟩
      · rw [if_neg h2]
        dsimp only
        by_cases h3 : c.verdict.isNone
        · exact ⟨"Initial verdict must be rendered before arguments can be submitted",
            by rw [if_pos h3]⟩
        · rw [if_neg h3]
          exact ⟨"Maximum number of arguments (5) reached for this side",
            by rw [if_pos h5]⟩
  · intro V R c hr
    exact ⟨(reach_caseInv hr c rfl).2.1, (reach_caseInv hr c rfl).2.2.1⟩

/-- An argument entry used to build a case at the five-per-side limit. -/
def limitEntry (i : Nat) : ArgEntry Unit :=
  { side := "A", argument := "point", aiResponse := (),
    timestamp := "2024-01-01T01:00:00.000Z", argumentNumber := i, id := "e" }

/-- A case already holding five side-A arguments and a verdict. -/
def fiveArgCase : Case Unit Unit :=
  { emptySidesCase with
    verdict := some (),
    arguments := [limitEntry 1, limitEntry 2, limitEntry 3, limitEntry 4, limitEntry 5] }

/-- Witness for C2 at concrete inputs. -/
theorem argue_rejects_sixth_argument_witness :
    (∃ m, argueStep (some fiveArgCase) "A" "one more" () "a6" "t6" =
      (some fiveArgCase, Http.err 400 m)) ∧
    countSide (createCase
      { title := "T", description := "D", country := "United States",
        caseType := "civil" } "w" "t0" : Case Unit Unit).arguments "A" ≤ 5 :=
  ⟨argue_rejects_sixth_argument.1 Unit Unit fiveArgCase "A" "one more" () "a6" "t6"
      (by decide),
    (argue_rejects_sixth_argument.2 Unit Unit _
      (Reach.created none
        { title := "T", description := "D", country := "United States",
          caseType := "civil" } "w" "t0" Reach.init)).1⟩

/-- C3: arguments never precede the verdict — in every reachable case state a
non-empty arguments list implies a stored verdict, because the argue endpoint
answers 400 whenever the case has no verdict. -/
theorem arguments_imply_verdict :
    (∀ (V R : Type) (c : Case V R), Reach V R (some c) →
      c.arguments ≠ [] → c.verdict.isSome) ∧
    (∀ (V R : Type) (c : Case V R) (side argument : String) (r : R)
        (genId now : String),
      (side = "A" ∨ side = "B") → argument ≠ "" → c.verdict = none →
      argueStep (some c) side argument r genId now =
        (some c,
          Http.err 400 "Initial verdict must be rendered before arguments can be submitted")) := by
  constructor
  · intro V R c hr
    exact (reach_caseInv hr c rfl).2.2.2
  · intro V R c side argument r genId now hside harg hv
    have h1 : ¬(side = "" ∨ argument = "") := by
      rintro (h | h)
      · rcases hside with hs | hs <;> subst hs <;> exact absurd h (by decide)
      · exact harg h
    have h2 : ¬(side ≠ "A" ∧ side ≠ "B") := by
      rintro ⟨hA, hB⟩
      rcases hside with hs | hs
      · exact hA hs
      · exact hB hs
    unfold argueStep
    rw [if_neg h1, if_neg h2]
    dsimp only
    rw [if_pos (by simp [hv])]

/-- The chain create → judge → argue, used to exhibit a reachable case with
arguments. -/
def chainCreated : Case Unit Unit :=
  createCase { title := "W", description := "d", country := "United States",
               caseType := "civil" } "w3" "t0"

def chainJudged : Case Unit Unit := setVerdict chainCreated () "t1"

def chainArgued : Case Unit Unit :=
  addArgument chainJudged
    { side := "A", argument := "x", aiResponse := (), timestamp := some "t2",
      argumentNumber := 1 } "a1" "t2"

theorem chainJudged_reach : Reach Unit Unit (some chainJudged) := by
  have h1 : Reach Unit Unit (some chainCreated) :=
    Reach.created none
      { title := "W", description := "d", country := "United States",
        caseType := "civil" } "w3" "t0" Reach.init
  have h2 := Reach.judged (some chainCreated) () "t1" h1
  rwa [show (judgeStep (some chainCreated) () "t1").1 = some chainJudged from rfl] at h2

theorem chainArgued_reach : Reach Unit Unit (some chainArgued) := by
  have h3 := Reach.argued (some chainJudged) "A" "x" () "a1" "t2" chainJudged_reach
  rwa [show (argueStep (some chainJudged) "A" "x" () "a1" "t2").1 = some chainArgued
    from rfl] at h3

/-- Witness for C3 at concrete inputs. -/
theorem arguments_imply_verdict_witness :
    chainArgued.verdict.isSome ∧
    argueStep (some chainCreated) "A" "x" () "a9" "t9" =
      (some chainCreated,
        Http.err 400 "Initial verdict must be rendered before arguments can be submitted") :=
  ⟨arguments_imply_verdict.1 Unit Unit chainArgued chainArgued_reach (by decide),
    arguments_imply_verdict.2 Unit Unit chainCreated "A" "x" () "a9" "t9"
      (Or.inl rfl) (by decide) rfl⟩

/-- C4: the status field is always one of the five enum values in every
reachable state, and each operation stamps exactly the status the claim
names (`addDocumentsToSide` according to whether both sides of the updated
record hold at least one document). -/
theorem status_state_machine :
    (∀ (V R : Type) (c : Case V R), Reach V R (some c) → c.status ∈ statusValues) ∧
    (∀ (V R : Type) (info : CaseInfo) (genId now : String),
      (createCase (V := V) (R := R) info genId now).status = "created") ∧
    (∀ (V R : Type) (slot : Option (Case V R)) (caseId side : String) (dd : DocData)
        (now genId : String),
      (addDocumentsToSide slot caseId side dd now genId).status =
        if 0 < (addDocumentsToSide slot caseId side dd now genId).sideA.documents.length ∧
            0 < (addDocumentsToSide slot caseId side dd now genId).sideB.documents.length
        then "ready_for_judgment" else "awaiting_documents") ∧
    (∀ (V R : Type) (c : Case V R) (v : V) (now : String),
      (setVerdict c v now).status = "verdict_rendered") ∧
    (∀ (V R : Type) (c : Case V R) (ad : ArgInput R) (genId now : String),
      (addArgument c ad genId now).status = "arguments_phase") := by
  refine ⟨?_, fun V R info genId now => rfl, fun V R slot caseId side dd now genId => rfl,
    fun V R c v now => rfl, fun V R c ad genId now => rfl⟩
  intro V R c hr
  exact (reach_caseInv hr c rfl).1

/-- Witness for C4 at a concrete reachable case. -/
theorem status_state_machine_witness : chainArgued.status ∈ statusValues :=
  status_state_machine.1 Unit Unit chainArgued chainArgued_reach

theorem parsePDF_ok {t : LibText} {out : String} (h : parsePDF t = Except.ok out) :
    out = cleanExtractedText t.pdfText := by
  unfold parsePDF at h
  split at h
  · cases h
  · injection h with h
    exact h.symm

theorem parseWord_ok {t : LibText} {out : String} (h : parseWord t = Except.ok out) :
    out = cleanExtractedText t.wordText := by
  unfold parseWord at h
  split at h
  · cases h
  · injection h with h
    exact h.symm

theorem parseText_ok {t : LibText} {out : String} (h : parseText t = Except.ok out) :
    out = cleanExtractedText t.rawText := by
  unfold parseText at h
  split at h
  · cases h
  · injection h with h
    exact h.symm

/-- C5: `parseDocument` dispatches purely on the MIME type — PDF, Word (for
both the `.doc` and `.docx` MIME types), plain text — throws on every other
MIME type, and every successful result is `cleanExtractedText` of the text
the chosen library returned; and `cleanExtractedText` is exactly
collapse-whitespace-runs-to-one-space followed by trim (the middle
triple-newline replacement never fires, because the first replacement leaves
no newline). -/
theorem parseDocument_dispatch :
    (∀ s : String, cleanExtractedText s = jsTrimStr (collapseStr s)) ∧
    (∀ (mimeType : String) (t : LibText), mimeType ∉ supportedMimes →
      parseDocument mimeType t =
        Except.error ("Failed to parse document: " ++
          ("Unsupported file type: " ++ mimeType))) ∧
    (∀ (mimeType : String) (t : LibText) (out : String),
      parseDocument mimeType t = Except.ok out →
      out = cleanExtractedText t.pdfText ∨ out = cleanExtractedText t.wordText ∨
        out = cleanExtractedText t.rawText) ∧
    (∀ t : LibText,
      parseDocument "application/msword" t =
        parseDocument
          "application/vnd.openxmlformats-officedocument.wordprocessingml.document" t) := by
  refine ⟨cleanExtractedText_eq_trim_collapse, ?_, ?_, fun t => rfl⟩
  · intro mimeType t hm
    simp only [supportedMimes, List.mem_cons, List.not_mem_nil, or_false] at hm
    push_neg at hm
    obtain ⟨h1, h2, h3, h4⟩ := hm
    simp only [parseDocument]
    rw [if_neg h1, if_neg (by rintro (h | h); exacts [h2 h, h3 h]), if_neg h4]
  · intro mimeType t out h
    simp only [parseDocument] at h
    by_cases h1 : mimeType = "application/pdf"
    · rw [if_pos h1] at h
      cases hb : parsePDF t with
      | error m => rw [hb] at h; cases h
      | ok s =>
        rw [hb] at h
        injection h with h
        exact Or.inl (h ▸ parsePDF_ok hb)
    · rw [if_neg h1] at h
      by_cases h2 : mimeType = "application/msword" ∨
          mimeType = "application/vnd.openxmlformats-officedocument.wordprocessingml.document"
      · rw [if_pos h2] at h
        cases hb : parseWord t with
        | error m => rw [hb] at h; cases h
        | ok s =>
          rw [hb] at h
          injection h with h
          exact Or.inr (Or.inl (h ▸ parseWord_ok hb))
      · rw [if_neg h2] at h
        by_cases h3 : mimeType = "text/plain"
        · rw [if_pos h3] at h
          cases hb : parseText t with
          | error m => rw [hb] at h; cases h
          | ok s =>
            rw [hb] at h
            injection h with h
            exact Or.inr (Or.inr (h ▸ parseText_ok hb))
        · rw [if_neg h3] at h
          cases h

/-- Library outputs used to witness C5. -/
def sampleLib : LibText := { pdfText := "p", wordText := "w  w", rawText := " r " }

/-- Witness for C5 at concrete inputs. -/
theorem parseDocument_dispatch_witness :
    parseDocument "image/png" sampleLib =
      Except.error ("Failed to parse document: " ++
        ("Unsupported file type: " ++ "image/png")) ∧
    ("r" = cleanExtractedText sampleLib.pdfText ∨
      "r" = cleanExtractedText sampleLib.wordText ∨
      "r" = cleanExtractedText sampleLib.rawText) :=
  ⟨parseDocument_dispatch.2.1 "image/png" sampleLib (by decide),
    parseDocument_dispatch.2.2.1 "text/plain" sampleLib "r" rfl⟩

/-- C6: best-effort JSON extraction with a fixed fallback — when the
first-brace-to-last-brace substring is absent or fails to parse, both
response parsers return their fixed fallback objects (decision
`insufficient_evidence`, empty findings and principles, null damages,
confidence 0.5, open to reconsideration; and verdict change `none` with
confidence 0.5 respectively); when the substring parses, the parsed object
is returned. -/
theorem parse_response_fallback :
    ∀ (α : Type) (jsonParse : String → Option α) (response : String),
      (braceSub response.data = none →
        parseVerdictResponse jsonParse response = Sum.inr (verdictFallback response) ∧
        parseArgumentResponse jsonParse response = Sum.inr (argumentFallback response)) ∧
      (∀ sub, braceSub response.data = some sub →
        (jsonParse (String.mk sub) = none →
          parseVerdictResponse jsonParse response = Sum.inr (verdictFallback response) ∧
          parseArgumentResponse jsonParse response = Sum.inr (argumentFallback response)) ∧
        (∀ v, jsonParse (String.mk sub) = some v →
          parseVerdictResponse jsonParse response = Sum.inl v ∧
          parseArgumentResponse jsonParse response = Sum.inl v)) ∧
      ((verdictFallback response).decision = "insufficient_evidence" ∧
        (verdictFallback response).keyFindings = [] ∧
        (verdictFallback response).legalPrinciples = [] ∧
        (verdictFallback response).damages = none ∧
        (verdictFallback response).confidence = 1 / 2 ∧
        (verdictFallback response).openToReconsideration = true ∧
        (argumentFallback response).verdictChange = "none" ∧
        (argumentFallback response).confidence = 1 / 2) := by
  intro α jsonParse response
  refine ⟨?_, ?_, rfl, rfl, rfl, rfl, rfl, rfl, rfl, rfl⟩
  · intro h
    constructor
    · unfold parseVerdictResponse
      rw [h]
    · unfold parseArgumentResponse
      rw [h]
  · intro sub hsub
    constructor
    · intro hp
      constructor
      · unfold parseVerdictResponse
        rw [hsub]
        dsimp only
        rw [hp]
      · unfold parseArgumentResponse
        rw [hsub]
        dsimp only
        rw [hp]
    · intro v hp
      constructor
      · unfold parseVerdictResponse
        rw [hsub]
        dsimp only
        rw [hp]
      · unfold parseArgumentResponse
        rw [hsub]
        dsimp only
        rw [hp]

/-- A concrete stand-in for `JSON.parse`, witnessing C6. -/
def sampleJsonParse : String → Option Nat :=
  fun s => if s = "\x7bx\x7d" then some 7 else none

/-- Witness for C6 at concrete inputs. -/
theorem parse_response_fallback_witness :
    parseVerdictResponse sampleJsonParse "ab\x7bx\x7dcd" = Sum.inl 7 ∧
    parseArgumentResponse sampleJsonParse "no json here" =
      Sum.inr (argumentFallback "no json here") :=
  ⟨(((parse_response_fallback Nat sampleJsonParse "ab\x7bx\x7dcd").2.1
        ['\x7b', 'x', '\x7d'] (by decide)).2 7 (by decide)).1,
    ((parse_response_fallback Nat sampleJsonParse "no json here").1 (by decide)).2⟩

/-- C7: `setVerdict` is a simple state-field update — it sets `verdict`,
`status`, `metadata.lastActivity` and `updatedAt`, and leaves the case id,
descriptive fields, `createdAt`, both sides, the arguments list and the
metadata counters untouched. -/
theorem setVerdict_frame :
    ∀ (V R : Type) (c : Case V R) (v : V) (now : String),
      (setVerdict c v now).caseId = c.caseId ∧
      (setVerdict c v now).title = c.title ∧
      (setVerdict c v now).description = c.description ∧
      (setVerdict c v now).country = c.country ∧
      (setVerdict c v now).caseType = c.caseType ∧
      (setVerdict c v now).createdAt = c.createdAt ∧
      (setVerdict c v now).sideA = c.sideA ∧
      (setVerdict c v now).sideB = c.sideB ∧
      (setVerdict c v now).arguments = c.arguments ∧
      (setVerdict c v now).metadata.totalArguments = c.metadata.totalArguments ∧
      (setVerdict c v now).metadata.sideAArguments = c.metadata.sideAArguments ∧
      (setVerdict c v now).metadata.sideBArguments = c.metadata.sideBArguments ∧
      (setVerdict c v now).verdict = some v ∧
      (setVerdict c v now).status = "verdict_rendered" ∧
      (setVerdict c v now).metadata.lastActivity = now ∧
      (setVerdict c v now).updatedAt = now :=
  fun V R c v now =>
    ⟨rfl, rfl, rfl, rfl, rfl, rfl, rfl, rfl, rfl, rfl, rfl, rfl, rfl, rfl, rfl, rfl⟩

/-- C8: uploading zero files answers 400 `'No files uploaded'` and leaves the
store slot unchanged, for either side (the side is a parameter of the shared
handler body) and in both the disk-storage and the blob-storage variant. -/
theorem upload_empty_files_400 :
    ∀ (V R : Type) (slot : Option (Case V R)) (caseId side : String)
      (files : Option (List UpFile)) (parse : UpFile → Except String String)
      (cloud : UpFile → Except String CloudInfo) (descr : Option String)
      (now genId : String),
      files = none ∨ files = some [] →
      uploadDiskStep slot caseId side files parse descr now genId =
        (slot, Http.err 400 "No files uploaded") ∧
      uploadBlobStep slot caseId side files parse cloud descr now genId =
        (slot, Http.err 400 "No files uploaded") := by
  intro V R slot caseId side files parse cloud descr now genId h
  rcases h with h | h <;> subst h <;> exact ⟨rfl, rfl⟩

/-- Witness for C8 at concrete inputs. -/
theorem upload_empty_files_400_witness :
    uploadDiskStep (V := Unit) (R := Unit) none "case_w" "A" none
        (fun _ => Except.error "unused") none "t0" "g0" =
      (none, Http.err 400 "No files uploaded") ∧
    uploadBlobStep (V := Unit) (R := Unit) none "case_w" "A" none
        (fun _ => Except.error "unused") (fun _ => Except.error "unused") none "t0" "g0" =
      (none, Http.err 400 "No files uploaded") :=
  upload_empty_files_400 Unit Unit none "case_w" "A" none
    (fun _ => Except.error "unused") (fun _ => Except.error "unused") none "t0" "g0"
    (Or.inl rfl)

/-- C9: uploading documents for a nonexistent case id never fails with
'case not found' — `addDocumentsToSide` auto-creates a case (title
`Case <id>`, country `United States`, type `civil`), overwrites the
generated identifier with the requested one, and carries the uploaded
documents on the requested side; on an existing case the id is likewise
unchanged, and the upload endpoint succeeds on an empty slot. -/
theorem upload_autocreates_case :
    ∀ (V R : Type) (caseId : String) (dd : DocData) (now genId : String),
      (addDocumentsToSide (V := V) (R := R) none caseId "A" dd now genId).caseId =
        caseId ∧
      (addDocumentsToSide (V := V) (R := R) none caseId "A" dd now genId).title =
        "Case " ++ caseId ∧
      (addDocumentsToSide (V := V) (R := R) none caseId "A" dd now genId).description =
        "Auto-created case from document upload" ∧
      (addDocumentsToSide (V := V) (R := R) none caseId "A" dd now genId).country =
        "United States" ∧
      (addDocumentsToSide (V := V) (R := R) none caseId "A" dd now genId).caseType =
        "civil" ∧
      (addDocumentsToSide (V := V) (R := R) none caseId "A" dd now genId).sideA.documents =
        dd.documents ∧
      (addDocumentsToSide (V := V) (R := R) none caseId "B" dd now genId).caseId =
        caseId ∧
      (addDocumentsToSide (V := V) (R := R) none caseId "B" dd now genId).sideB.documents =
        dd.documents ∧
      (∀ c : Case V R,
        (addDocumentsToSide (some c) caseId "A" dd now genId).caseId = c.caseId) ∧
      (∀ (f : UpFile) (parse : UpFile → Except String String) (descr : Option String),
        (uploadDiskStep (V := V) (R := R) none caseId "A" (some [f]) parse descr
          now genId).2 = Http.ok) :=
  fun V R caseId dd now genId =>
    ⟨rfl, rfl, rfl, rfl, rfl, rfl, rfl, rfl, fun c => rfl, fun f parse descr => rfl⟩

/-- C10: after `addArgument` the metadata counters agree with the stored
arguments list — `totalArguments` is its length, the side counters count the
matching entries, and when every stored side is `A` or `B` the side counters
sum to the total. -/
theorem addArgument_counters_consistent :
    ∀ (V R : Type) (c : Case V R) (ad : ArgInput R) (genId now : String),
      (addArgument c ad genId now).metadata.totalArguments =
        (addArgument c ad genId now).arguments.length ∧
      (addArgument c ad genId now).metadata.sideAArguments =
        countSide (addArgument c ad genId now).arguments "A" ∧
      (addArgument c ad genId now).metadata.sideBArguments =
        countSide (addArgument c ad genId now).arguments "B" ∧
      ((∀ a ∈ (addArgument c ad genId now).arguments, a.side = "A" ∨ a.side = "B") →
        (addArgument c ad genId now).metadata.sideAArguments +
            (addArgument c ad genId now).metadata.sideBArguments =
          (addArgument c ad genId now).metadata.totalArguments) := by
  intro V R c ad genId now
  refine ⟨rfl, rfl, rfl, ?_⟩
  intro h
  exact countSide_all_sides _ h

/-- Witness for C10 at a concrete case. -/
theorem addArgument_counters_consistent_witness :
    chainArgued.metadata.sideAArguments + chainArgued.metadata.sideBArguments =
      chainArgued.metadata.totalArguments :=
  (addArgument_counters_consistent Unit Unit chainJudged
    { side := "A", argument := "x", aiResponse := (), timestamp := some "t2",
      argumentNumber := 1 } "a1" "t2").2.2.2 (by decide)

end AIJudge
